import Mathlib

/-!
Shallow embedding of the E2E Testing Agent session client
(`src/unnamed/part_001`, the React component `E2ETestingAgent`).

The client owns the local state (instruction text, cluster credentials,
the current `TestSession`, the open `ClarificationQuestion`, the poll
loop) and drives a remote backend over five HTTP POST calls.  Each
asynchronous handler of the component is embedded as a pure function
from the client state and the fetch outcomes it awaits to the new
client state, the list of HTTP calls it issued, and a flag telling
whether it started the status-polling loop.  JavaScript truthiness of
the `x || y` defaults is modelled explicitly (`""` is falsy, every
array is truthy, `undefined` is `Option.none`).
-/

namespace AgentClient

/-- `ClusterConfig` from the source: `{ ip, username, password, url }`. -/
structure ClusterConfig where
  ip : String
  username : String
  password : String
  url : String
deriving DecidableEq

/-- `ClarificationOption` from the source: `{ value, label, description?, data? }`.
The `any`-typed `data` payload is carried opaquely as an optional string. -/
structure ClarificationOption where
  value : String
  label : String
  description : Option String
  data : Option String
deriving DecidableEq

/-- `ClarificationQuestion` from the source:
`{ type, message, options, workflow_context, parameter_name? }`. -/
structure ClarificationQuestion where
  type : String
  message : String
  options : List ClarificationOption
  workflow_context : String
  parameter_name : Option String
deriving DecidableEq

/-- `ExecutionStep` from the source:
`{ stepId, workflow, tddStep, status, timestamp, errorDetails? }`. -/
structure ExecutionStep where
  stepId : String
  workflow : String
  tddStep : String
  status : String
  timestamp : String
  errorDetails : Option String
deriving DecidableEq

/-- `TestSession` from the source.  At runtime the TypeScript union type on
`status` is erased, and poll ticks store whatever string the server sent, so
`status` is a plain `String`.  `sessionId` can be the JavaScript `undefined`
(when copied from a response that omits `session_id`), and `workflows` can be
`undefined` (the clarification/skip updates assign the response field with no
`|| []` default), so both are `Option`s; `none` models `undefined`. -/
structure TestSession where
  sessionId : Option String
  status : String
  command : String
  workflows : Option (List String)
  errorMessage : Option String
deriving DecidableEq

/-- The JSON body of a backend response, with every field the client ever
reads.  A missing field is `none` (JavaScript `undefined`). -/
structure ApiBody where
  status : Option String
  session_id : Option String
  detected_workflows : Option (List String)
  clarification : Option ClarificationQuestion
  workflows : Option (List String)
  updated_workflows : Option (List String)
  error_message : Option String
  steps : Option (List ExecutionStep)
deriving DecidableEq

/-- A response body with every field absent. -/
def ApiBody.empty : ApiBody := ⟨none, none, none, none, none, none, none, none⟩

/-- Outcome of one `await fetch(...)`: either the promise rejects
(transport failure, modelled with the error message), or a response
arrives with its `ok` flag, its `statusText` and its JSON body. -/
inductive FetchResult where
  | throws : String → FetchResult
  | resp : Bool → String → ApiBody → FetchResult
deriving DecidableEq

/-- One HTTP call issued by the client, with the request-body fields the
source serializes. -/
inductive HttpCall where
  | parseInstructions : String → String → String → String → HttpCall
  | provideClarification : Option String → String → String → HttpCall
  | skipClar : Option String → HttpCall
  | executePlan : Option String → HttpCall
  | getStatus : Option String → HttpCall
deriving DecidableEq

/-- The component's local state: the `useState` hooks of `E2ETestingAgent`. -/
structure ClientState where
  instruction : String
  clusterConfig : ClusterConfig
  isExecuting : Bool
  testSession : Option TestSession
  executionSteps : List ExecutionStep
  showClarification : Bool
  clarificationQuestion : Option ClarificationQuestion
  selectedOption : String
deriving DecidableEq

/-- JavaScript `x || d` on an optional string field: `undefined` and the
empty string are falsy. -/
def jsOrStr : Option String → String → String
  | some s, d => if s = "" then d else s
  | none, d => d

/-- JavaScript `String.prototype.trim()`: strip leading and trailing
whitespace.  Defined over the character list so it computes by structural
recursion. -/
def jsTrim (s : String) : String :=
  ⟨((s.data.dropWhile Char.isWhitespace).reverse.dropWhile Char.isWhitespace).reverse⟩

/-- `parseResult.workflows || parseResult.updated_workflows || []` from
`proceedWithExecution`: a present array (even empty) is truthy. -/
def resultWorkflows (b : ApiBody) : List String :=
  match b.workflows with
  | some ws => ws
  | none =>
    match b.updated_workflows with
    | some ws => ws
    | none => []

/-- `status.workflows || prev?.workflows || []` from the poll tick. -/
def tickWorkflows (b : ApiBody) (prev : Option TestSession) : List String :=
  match b.workflows with
  | some ws => ws
  | none =>
    match prev with
    | some ts =>
      match ts.workflows with
      | some pw => pw
      | none => []
    | none => []

/-- `proceedWithExecution(sessionId, parseResult)` from the source: POSTs
`/execute_test_plan`, then on `ok` replaces the session with an `executing`
one (workflows from `parseResult.workflows || parseResult.updated_workflows
|| []`, `errorMessage: undefined`) and starts polling; on a non-2xx response
or a transport failure its own `catch` replaces the session with a `failed`
one (`workflows: []`) and clears `isExecuting`.  Returns the new state, the
calls issued, and whether polling was started. -/
def proceedWithExecution (sessionId : Option String) (instr : String)
    (parseResult : ApiBody) (s : ClientState) (execResp : FetchResult) :
    ClientState × List HttpCall × Bool :=
  match execResp with
  | .throws msg =>
    ({ s with
        testSession := some ⟨sessionId, "failed", instr, some [], some msg⟩,
        isExecuting := false },
     [HttpCall.executePlan sessionId], false)
  | .resp ok stext _body =>
    if ok then
      ({ s with
          testSession := some
            ⟨sessionId, "executing", instr, some (resultWorkflows parseResult), none⟩ },
       [HttpCall.executePlan sessionId], true)
    else
      ({ s with
          testSession := some
            ⟨sessionId, "failed", instr, some [],
              some ("Failed to execute test: " ++ stext)⟩,
          isExecuting := false },
       [HttpCall.executePlan sessionId], false)

/-- `executeTest` from the source.  Rejects locally (alert, no fetch) when
`instruction.trim()`, `clusterConfig.ip` or `clusterConfig.username` is
empty; otherwise resets the transient state, POSTs
`/parse_test_instructions` with `url: clusterConfig.url || "https://" + ip`,
and either stops in `needs_clarification` or continues into
`proceedWithExecution`.  Transport failures and non-2xx parse responses land
in the `catch`, which records a `failed` session whose message embeds the
HTTP status text. -/
def executeTest (s : ClientState) (parseResp : FetchResult)
    (execResp : FetchResult) : ClientState × List HttpCall × Bool :=
  if jsTrim s.instruction = "" ∨ s.clusterConfig.ip = "" ∨ s.clusterConfig.username = "" then
    (s, [], false)
  else
    let s1 : ClientState :=
      { s with isExecuting := true, testSession := none,
               executionSteps := [], showClarification := false }
    let req : HttpCall :=
      HttpCall.parseInstructions s.instruction
        (if s.clusterConfig.url = "" then "https://" ++ s.clusterConfig.ip
         else s.clusterConfig.url)
        s.clusterConfig.username s.clusterConfig.password
    match parseResp with
    | .throws msg =>
      ({ s1 with
          testSession := some ⟨some "error", "failed", s.instruction, some [], some msg⟩,
          isExecuting := false },
       [req], false)
    | .resp ok stext body =>
      if ok then
        if body.status = some "needs_clarification" then
          ({ s1 with
              clarificationQuestion := body.clarification,
              showClarification := true,
              testSession := some
                ⟨body.session_id, "needs_clarification", s.instruction,
                  some (body.detected_workflows.getD []), none⟩,
              isExecuting := false },
           [req], false)
        else
          let out := proceedWithExecution body.session_id s.instruction body s1 execResp
          (out.1, req :: out.2.1, out.2.2)
      else
        ({ s1 with
            testSession := some
              ⟨some "error", "failed", s.instruction, some [],
                some ("Failed to parse instructions: " ++ stext)⟩,
            isExecuting := false },
         [req], false)

/-- The state written by `skipClarification`'s success path before it awaits
`proceedWithExecution`: dialog hidden, question discarded, session bumped to
`parsing` with `workflows: skipResult.workflows` (no `|| []` default). -/
def skipSuccessState (s : ClientState) (ts : TestSession) (body : ApiBody) :
    ClientState :=
  { s with isExecuting := true, showClarification := false,
           clarificationQuestion := none,
           testSession := some
             { ts with status := "parsing", workflows := body.workflows } }

/-- `skipClarification` from the source: no-op without a session; POSTs
`/api/v1/session/{id}/skip_clarification`; on `ok` passes through
`skipSuccessState` and continues into `proceedWithExecution`; the `catch`
(transport failure or thrown non-2xx error) marks the session `failed`,
hides the dialog, but leaves `clarificationQuestion` untouched. -/
def skipClarification (s : ClientState) (skipResp : FetchResult)
    (execResp : FetchResult) : ClientState × List HttpCall × Bool :=
  match s.testSession with
  | none => (s, [], false)
  | some ts =>
    let req : HttpCall := HttpCall.skipClar ts.sessionId
    match skipResp with
    | .throws msg =>
      ({ s with
          isExecuting := false,
          showClarification := false,
          testSession := some
            { ts with status := "failed", errorMessage := some msg } },
       [req], false)
    | .resp ok stext body =>
      if ok then
        let out := proceedWithExecution ts.sessionId s.instruction body
          (skipSuccessState s ts body) execResp
        (out.1, req :: out.2.1, out.2.2)
      else
        ({ s with
            isExecuting := false,
            showClarification := false,
            testSession := some
              { ts with
                  status := "failed",
                  errorMessage := some ("Failed to skip clarification: " ++ stext) } },
         [req], false)

/-- `handleClarificationResponse` from the source: rejects locally (alert,
no fetch) when no option is selected or no session/question is open; POSTs
`/api/v1/provide_clarification` with the question type and the choice; on
`ok` hides the dialog, discards the question, clears the selection, bumps
the session to `parsing` with `workflows: clarificationResult.updated_workflows`,
and continues into `proceedWithExecution`; the `catch` marks the session
`failed`, hides the dialog, but leaves `clarificationQuestion` and
`selectedOption` untouched. -/
def handleClarificationResponse (s : ClientState) (clarResp : FetchResult)
    (execResp : FetchResult) : ClientState × List HttpCall × Bool :=
  if s.selectedOption = "" then (s, [], false)
  else
    match s.testSession, s.clarificationQuestion with
    | some ts, some q =>
      let req : HttpCall :=
        HttpCall.provideClarification ts.sessionId q.type s.selectedOption
      match clarResp with
      | .throws msg =>
        ({ s with
            isExecuting := false,
            showClarification := false,
            testSession := some
              { ts with status := "failed", errorMessage := some msg } },
         [req], false)
      | .resp ok stext body =>
        if ok then
          let s2 : ClientState :=
            { s with
                isExecuting := true,
                showClarification := false,
                clarificationQuestion := none,
                selectedOption := "",
                testSession := some
                  { ts with
                      status := "parsing",
                      workflows := body.updated_workflows } }
          let out := proceedWithExecution ts.sessionId s.instruction body s2 execResp
          (out.1, req :: out.2.1, out.2.2)
        else
          ({ s with
              isExecuting := false,
              showClarification := false,
              testSession := some
                { ts with
                    status := "failed",
                    errorMessage := some ("Failed to process clarification: " ++ stext) } },
           [req], false)
    | _, _ => (s, [], false)

/-- One tick of the `setInterval` callback in `pollExecutionStatus`.
Returns the new client state and whether the tick stopped polling
(`clearInterval`).  An `ok` response rebuilds the session (`status ||
'executing'`, `workflows || prev?.workflows || []`, `errorMessage:
status.error_message`) and stops on a terminal status, also installing
`steps` when present; a non-2xx response is silently ignored (the
`if (response.ok)` guard has no else branch); a transport failure is
caught, stops polling and clears `isExecuting` without touching the
session. -/
def pollTick (sessionId : Option String) (instr : String) (s : ClientState)
    (r : FetchResult) : ClientState × Bool :=
  match r with
  | .throws _ => ({ s with isExecuting := false }, true)
  | .resp ok _ body =>
    if ok then
      let newSession : TestSession :=
        ⟨sessionId, jsOrStr body.status "executing", instr,
          some (tickWorkflows body s.testSession), body.error_message⟩
      let s1 : ClientState := { s with testSession := some newSession }
      if body.status = some "completed" ∨ body.status = some "failed" then
        match body.steps with
        | some st => ({ s1 with isExecuting := false, executionSteps := st }, true)
        | none => ({ s1 with isExecuting := false }, true)
      else (s1, false)
    else (s, false)

/-- Whether a single poll tick clears the interval: a transport failure, or
an `ok` response with terminal `status.status`. -/
def stopsPolling : FetchResult → Bool
  | .throws _ => true
  | .resp ok _ body =>
    ok && (body.status = some "completed" || body.status = some "failed")

/-- The polling loop together with its interval handle: `running = false`
once `clearInterval(interval)` has run. -/
structure PollSys where
  client : ClientState
  running : Bool
deriving DecidableEq

/-- Run the `setInterval` loop of `pollExecutionStatus` over a sequence of
tick outcomes; a tick that stops polling leaves the rest of the sequence
unconsumed. -/
def runPoll (sessionId : Option String) (instr : String) :
    List FetchResult → PollSys → PollSys
  | [], p => p
  | r :: rs, p =>
    if p.running then
      let out := pollTick sessionId instr p.client r
      if out.2 then ⟨out.1, false⟩
      else runPoll sessionId instr rs ⟨out.1, true⟩
    else p

/-- The poll interval: `setInterval(..., 3000)`. -/
def pollIntervalMs : Nat := 3000

/-- The cleanup ceiling: `setTimeout(..., 600000)`. -/
def pollCeilingMs : Nat := 600000

/-- Ticks that fire before/at the 10-minute ceiling: one every 3 s. -/
def maxPollTicks : Nat := pollCeilingMs / pollIntervalMs

/-- A full polling run of `pollExecutionStatus`: at most `maxPollTicks`
interval ticks can fire, then the `setTimeout` cleanup runs
`clearInterval(interval); setIsExecuting(false)` — and nothing else. -/
def runPollCeil (sessionId : Option String) (instr : String)
    (rs : List FetchResult) (s : ClientState) : PollSys :=
  let out := runPoll sessionId instr (rs.take maxPollTicks) ⟨s, true⟩
  ⟨{ out.client with isExecuting := false }, false⟩

/-! Concrete sample data, used to evaluate the embedded operations on
explicit inputs. -/

/-- A filled-in cluster form (no base URL). -/
def cfg0 : ClusterConfig := ⟨"192.168.1.100", "admin", "x", ""⟩

/-- A clarification question with one option, as the backend would raise for
the ambiguous `create L3VN` example instruction. -/
def q0 : ClarificationQuestion :=
  ⟨"fabric_choice", "Which fabric?", [⟨"f1", "Fabric 1", none, none⟩], "l3vn", none⟩

/-- A session in the `executing` state. -/
def ts0 : TestSession := ⟨some "s1", "executing", "create L3VN", some ["l3vn"], none⟩

/-- Client state while polling: executing, no open clarification. -/
def s0 : ClientState := ⟨"create L3VN", cfg0, true, some ts0, [], false, none, ""⟩

/-- A session waiting on a clarification. -/
def tsClar : TestSession := ⟨some "s1", "needs_clarification", "create L3VN", some [], none⟩

/-- Client state with an open clarification dialog and option `f1` selected. -/
def sClar : ClientState := ⟨"create L3VN", cfg0, false, some tsClar, [], true, some q0, "f1"⟩

/-- Poll body reporting a non-terminal status. -/
def bodyExecuting : ApiBody := { ApiBody.empty with status := some "executing" }

/-- Poll body reporting the terminal `completed` status, with one step. -/
def bodyCompleted : ApiBody :=
  { ApiBody.empty with
      status := some "completed",
      steps := some [⟨"1", "network_hierarchy", "create area", "passed", "t", none⟩] }

/-- An `ok` poll response with a non-terminal status. -/
def frExecuting : FetchResult := .resp true "OK" bodyExecuting

/-- An `ok` poll response with a terminal status. -/
def frCompleted : FetchResult := .resp true "OK" bodyCompleted

/-- A valid filled-in form whose cluster url field is empty. -/
def sGo : ClientState :=
  ⟨"go", ⟨"1.2.3.4", "admin", "", ""⟩, false, none, [], false, none, ""⟩

/-- A valid filled-in form with an explicit base url. -/
def sUrl : ClientState :=
  ⟨"go", ⟨"1.2.3.4", "admin", "pw", "https://cluster.example.com"⟩,
    false, none, [], false, none, ""⟩

/-- Parse response asking for clarification. -/
def bodyClar : ApiBody :=
  { ApiBody.empty with
      status := some "needs_clarification",
      session_id := some "p1",
      clarification := some q0,
      detected_workflows := some ["l3vn"] }

/-- Skip response carrying a resolved workflow list. -/
def bodySkip : ApiBody := { ApiBody.empty with workflows := some ["wf1", "wf2"] }

/-! Helper lemmas about the poll tick and the poll loop. -/

/-- A tick clears the interval exactly when `stopsPolling` says so. -/
theorem pollTick_snd_eq (sessionId : Option String) (instr : String)
    (s : ClientState) (r : FetchResult) :
    (pollTick sessionId instr s r).2 = stopsPolling r := by
  cases r with
  | throws m => rfl
  | resp ok st b =>
    cases ok with
    | false => rfl
    | true =>
      by_cases h : b.status = some "completed" ∨ b.status = some "failed"
      · rcases h with h | h <;> cases hb : b.steps <;>
          simp [pollTick, stopsPolling, h, hb]
      · rw [not_or] at h
        simp [pollTick, stopsPolling, h.1, h.2]

/-- A stopping tick also clears `isExecuting`. -/
theorem pollTick_stop_clears (sessionId : Option String) (instr : String)
    (s : ClientState) (r : FetchResult) (h : stopsPolling r = true) :
    (pollTick sessionId instr s r).1.isExecuting = false := by
  cases r with
  | throws m => rfl
  | resp ok st b =>
    cases ok with
    | false => simp [stopsPolling] at h
    | true =>
      simp only [stopsPolling, Bool.true_and, Bool.or_eq_true, decide_eq_true_eq] at h
      rcases h with h | h <;> cases hb : b.steps <;>
        simp [pollTick, h, hb]

/-- A non-stopping tick leaves `isExecuting` alone. -/
theorem pollTick_nostop_keeps (sessionId : Option String) (instr : String)
    (s : ClientState) (r : FetchResult) (h : stopsPolling r = false) :
    (pollTick sessionId instr s r).1.isExecuting = s.isExecuting := by
  cases r with
  | throws m => simp [stopsPolling] at h
  | resp ok st b =>
    cases ok with
    | false => rfl
    | true =>
      simp only [stopsPolling, Bool.true_and, Bool.or_eq_false_iff,
        decide_eq_false_iff_not] at h
      simp [pollTick, h.1, h.2]

/-- Unfolding one live step of the poll loop. -/
theorem runPoll_cons (sessionId : Option String) (instr : String)
    (r : FetchResult) (rs : List FetchResult) (p : PollSys)
    (hp : p.running = true) :
    runPoll sessionId instr (r :: rs) p =
      if stopsPolling r then ⟨(pollTick sessionId instr p.client r).1, false⟩
      else runPoll sessionId instr rs ⟨(pollTick sessionId instr p.client r).1, true⟩ := by
  rw [runPoll]
  simp only [hp, if_true, pollTick_snd_eq]

/-- A stopping tick ends the loop immediately. -/
theorem runPoll_cons_stop (sessionId : Option String) (instr : String)
    (r : FetchResult) (rs : List FetchResult) (p : PollSys)
    (hp : p.running = true) (hr : stopsPolling r = true) :
    runPoll sessionId instr (r :: rs) p =
      ⟨(pollTick sessionId instr p.client r).1, false⟩ := by
  rw [runPoll_cons sessionId instr r rs p hp, if_pos hr]

/-- A non-stopping tick lets the loop continue. -/
theorem runPoll_cons_nostop (sessionId : Option String) (instr : String)
    (r : FetchResult) (rs : List FetchResult) (p : PollSys)
    (hp : p.running = true) (hr : stopsPolling r = false) :
    runPoll sessionId instr (r :: rs) p =
      runPoll sessionId instr rs ⟨(pollTick sessionId instr p.client r).1, true⟩ := by
  rw [runPoll_cons sessionId instr r rs p hp, if_neg (by simp [hr])]

/-- As long as no tick stops polling, the interval stays live and
`isExecuting` is untouched. -/
theorem runPoll_nostop_keeps (sessionId : Option String) (instr : String)
    (rs : List FetchResult) (p : PollSys)
    (h : ∀ x ∈ rs, stopsPolling x = false) (hp : p.running = true) :
    (runPoll sessionId instr rs p).running = true ∧
    (runPoll sessionId instr rs p).client.isExecuting = p.client.isExecuting := by
  induction rs generalizing p with
  | nil => rw [runPoll]; exact ⟨hp, rfl⟩
  | cons r rs ih =>
    have hr : stopsPolling r = false := h r (List.mem_cons_self r rs)
    rw [runPoll_cons_nostop sessionId instr r rs p hp hr]
    have step := ih ⟨(pollTick sessionId instr p.client r).1, true⟩
      (fun x hx => h x (List.mem_cons_of_mem r hx)) rfl
    refine ⟨step.1, ?_⟩
    rw [step.2]
    exact pollTick_nostop_keeps sessionId instr p.client r hr

/-- After any run of non-stopping ticks, a stopping tick terminates the
loop: the rest of the tick sequence is never consumed, the interval is
cleared and `isExecuting` is cleared. -/
theorem runPoll_append_stop (sessionId : Option String) (instr : String)
    (rs : List FetchResult) (t : FetchResult) (rest : List FetchResult)
    (p : PollSys) (hrs : ∀ x ∈ rs, stopsPolling x = false)
    (ht : stopsPolling t = true) (hp : p.running = true) :
    runPoll sessionId instr (rs ++ t :: rest) p =
      runPoll sessionId instr (rs ++ [t]) p ∧
    (runPoll sessionId instr (rs ++ t :: rest) p).running = false ∧
    (runPoll sessionId instr (rs ++ t :: rest) p).client.isExecuting = false := by
  induction rs generalizing p with
  | nil =>
    simp only [List.nil_append]
    rw [runPoll_cons_stop sessionId instr t rest p hp ht,
      runPoll_cons_stop sessionId instr t [] p hp ht]
    exact ⟨rfl, rfl, pollTick_stop_clears sessionId instr p.client t ht⟩
  | cons r rs ih =>
    have hr : stopsPolling r = false := hrs r (List.mem_cons_self r rs)
    simp only [List.cons_append]
    rw [runPoll_cons_nostop sessionId instr r (rs ++ t :: rest) p hp hr,
      runPoll_cons_nostop sessionId instr r (rs ++ [t]) p hp hr]
    exact ih ⟨(pollTick sessionId instr p.client r).1, true⟩
      (fun x hx => hrs x (List.mem_cons_of_mem r hx)) rfl

/-- Under a passing validation guard, the parse call is the first request
`executeTest` issues, with the body fields the source serializes. -/
theorem executeTest_head_req (s : ClientState) (p e : FetchResult)
    (h1 : jsTrim s.instruction ≠ "") (h2 : s.clusterConfig.ip ≠ "")
    (h3 : s.clusterConfig.username ≠ "") :
    (executeTest s p e).2.1.head? = some
      (HttpCall.parseInstructions s.instruction
        (if s.clusterConfig.url = "" then "https://" ++ s.clusterConfig.ip
         else s.clusterConfig.url)
        s.clusterConfig.username s.clusterConfig.password) := by
  rw [executeTest, if_neg (by push_neg; exact ⟨h1, h2, h3⟩)]
  cases p with
  | throws m => rfl
  | resp ok st b =>
    cases ok with
    | false => rfl
    | true => by_cases hs : b.status = some "needs_clarification" <;> simp [hs]

/-! Claim theorems. -/

/-- Claim C4: submitting with an empty (or whitespace-only) instruction, or
an empty cluster ip or username, issues no network request and leaves the
state unchanged; the required fields are exactly those three — with them
non-empty the request goes out regardless of the password. -/
theorem executeTest_field_validation :
    (∀ (s : ClientState) (p e : FetchResult),
      jsTrim s.instruction = "" ∨ s.clusterConfig.ip = "" ∨ s.clusterConfig.username = "" →
      executeTest s p e = (s, [], false))
    ∧ (∀ (s : ClientState) (p e : FetchResult),
      jsTrim s.instruction ≠ "" → s.clusterConfig.ip ≠ "" →
      s.clusterConfig.username ≠ "" → (executeTest s p e).2.1 ≠ []) := by
  constructor
  · intro s p e h
    rw [executeTest, if_pos h]
  · intro s p e h1 h2 h3
    rw [executeTest, if_neg (by push_neg; exact ⟨h1, h2, h3⟩)]
    cases p with
    | throws m => simp
    | resp ok st b =>
      cases ok with
      | false => simp
      | true => by_cases hs : b.status = some "needs_clarification" <;> simp [hs]

/-- Witness for C4: a whitespace-only instruction is rejected with no
request and unchanged state, while an empty password does not block the
submission. -/
theorem executeTest_field_validation_witness :
    executeTest ⟨"   ", cfg0, false, none, [], false, none, ""⟩
        (FetchResult.throws "e") (FetchResult.throws "e") =
      (⟨"   ", cfg0, false, none, [], false, none, ""⟩, [], false)
    ∧ (executeTest sGo (FetchResult.throws "e") (FetchResult.throws "e")).2.1 ≠ [] :=
  ⟨executeTest_field_validation.1 _ _ _ (Or.inl (by decide)),
   executeTest_field_validation.2 sGo _ _ (by decide) (by decide) (by decide)⟩

/-- Claim C8: invoking `handleClarificationResponse` with no selected
option is rejected locally: no request is issued and the state is
unchanged. -/
theorem answer_requires_selected_option (s : ClientState) (p e : FetchResult)
    (h : s.selectedOption = "") :
    handleClarificationResponse s p e = (s, [], false) := by
  rw [handleClarificationResponse, if_pos h]

/-- Witness for C8 at a concrete polling-time state with no selection. -/
theorem answer_requires_selected_option_witness :
    handleClarificationResponse s0 (FetchResult.throws "e") (FetchResult.throws "e") =
      (s0, [], false) :=
  answer_requires_selected_option s0 _ _ rfl

/-- Claim C10: when the cluster url field is empty, the parse request's url
is the string `https://` concatenated with the cluster ip; a non-empty url
is forwarded verbatim. -/
theorem parse_url_default_https (s : ClientState) (p e : FetchResult)
    (h1 : jsTrim s.instruction ≠ "") (h2 : s.clusterConfig.ip ≠ "")
    (h3 : s.clusterConfig.username ≠ "") :
    (s.clusterConfig.url = "" →
      (executeTest s p e).2.1.head? = some
        (HttpCall.parseInstructions s.instruction ("https://" ++ s.clusterConfig.ip)
          s.clusterConfig.username s.clusterConfig.password))
    ∧ (s.clusterConfig.url ≠ "" →
      (executeTest s p e).2.1.head? = some
        (HttpCall.parseInstructions s.instruction s.clusterConfig.url
          s.clusterConfig.username s.clusterConfig.password)) := by
  constructor
  · intro hu
    rw [executeTest_head_req s p e h1 h2 h3, if_pos hu]
  · intro hu
    rw [executeTest_head_req s p e h1 h2 h3, if_neg hu]

/-- Witness for C10: with the url field blank the parse request targets
`https://1.2.3.4`; with it filled the url goes through verbatim. -/
theorem parse_url_default_https_witness :
    (executeTest sGo (FetchResult.throws "e") (FetchResult.throws "e")).2.1.head? =
      some (HttpCall.parseInstructions "go" "https://1.2.3.4" "admin" "")
    ∧ (executeTest sUrl (FetchResult.throws "e") (FetchResult.throws "e")).2.1.head? =
      some (HttpCall.parseInstructions "go" "https://cluster.example.com" "admin" "pw") :=
  ⟨(parse_url_default_https sGo _ _ (by decide) (by decide) (by decide)).1 rfl,
   (parse_url_default_https sUrl _ _ (by decide) (by decide) (by decide)).2 (by decide)⟩

/-- Claim C3: a parse response whose status is `needs_clarification` puts
the session in that state with the question stored, issues only the parse
call — in particular no `execute_test_plan` call — and does not start
polling. -/
theorem needs_clarification_no_autoexecute (s : ClientState) (stext : String)
    (b : ApiBody) (e : FetchResult)
    (h1 : jsTrim s.instruction ≠ "") (h2 : s.clusterConfig.ip ≠ "")
    (h3 : s.clusterConfig.username ≠ "")
    (hst : b.status = some "needs_clarification") :
    executeTest s (.resp true stext b) e =
      ({ s with
          isExecuting := false,
          testSession := some
            ⟨b.session_id, "needs_clarification", s.instruction,
              some (b.detected_workflows.getD []), none⟩,
          executionSteps := [],
          showClarification := true,
          clarificationQuestion := b.clarification },
       [HttpCall.parseInstructions s.instruction
          (if s.clusterConfig.url = "" then "https://" ++ s.clusterConfig.ip
           else s.clusterConfig.url)
          s.clusterConfig.username s.clusterConfig.password],
       false)
    ∧ ∀ sid, HttpCall.executePlan sid ∉ (executeTest s (.resp true stext b) e).2.1 := by
  have hmain : executeTest s (.resp true stext b) e =
      ({ s with
          isExecuting := false,
          testSession := some
            ⟨b.session_id, "needs_clarification", s.instruction,
              some (b.detected_workflows.getD []), none⟩,
          executionSteps := [],
          showClarification := true,
          clarificationQuestion := b.clarification },
       [HttpCall.parseInstructions s.instruction
          (if s.clusterConfig.url = "" then "https://" ++ s.clusterConfig.ip
           else s.clusterConfig.url)
          s.clusterConfig.username s.clusterConfig.password],
       false) := by
    rw [executeTest, if_neg (by push_neg; exact ⟨h1, h2, h3⟩)]
    simp [hst]
  refine ⟨hmain, fun sid => ?_⟩
  rw [hmain]
  simp

/-- Witness for C3: the clarification-raising parse response on a filled-in
form issues no `execute_test_plan` call. -/
theorem needs_clarification_no_autoexecute_witness :
    HttpCall.executePlan (some "p1") ∉
      (executeTest sGo (FetchResult.resp true "OK" bodyClar)
        (FetchResult.throws "e")).2.1 :=
  (needs_clarification_no_autoexecute sGo "OK" bodyClar (FetchResult.throws "e")
    (by decide) (by decide) (by decide) rfl).2 (some "p1")

/-- Claim C1: an `ok` poll tick stops the loop exactly when its status
field is `completed` or `failed`; a tick whose fetch throws stops the loop
at once (no retry), clearing only `isExecuting`; and at loop level a run of
non-stopping ticks followed by a stopping one never consumes anything past
the stopping tick, ending with the interval cleared and `isExecuting`
false. -/
theorem polling_stops_exactly_on_terminal :
    (∀ (sessionId : Option String) (instr : String) (s : ClientState)
        (stext : String) (b : ApiBody),
      (pollTick sessionId instr s (.resp true stext b)).2 = true ↔
        b.status = some "completed" ∨ b.status = some "failed")
    ∧ (∀ (sessionId : Option String) (instr : String) (s : ClientState) (msg : String),
      pollTick sessionId instr s (.throws msg) = ({ s with isExecuting := false }, true))
    ∧ (∀ (sessionId : Option String) (instr : String) (rs : List FetchResult)
        (t : FetchResult) (rest : List FetchResult) (p : PollSys),
      (∀ x ∈ rs, stopsPolling x = false) → stopsPolling t = true → p.running = true →
      runPoll sessionId instr (rs ++ t :: rest) p = runPoll sessionId instr (rs ++ [t]) p ∧
      (runPoll sessionId instr (rs ++ t :: rest) p).running = false ∧
      (runPoll sessionId instr (rs ++ t :: rest) p).client.isExecuting = false) := by
  refine ⟨?_, ?_, ?_⟩
  · intro sessionId instr s stext b
    rw [pollTick_snd_eq]
    simp [stopsPolling]
  · intro sessionId instr s msg
    rfl
  · intro sessionId instr rs t rest p hrs ht hp
    exact runPoll_append_stop sessionId instr rs t rest p hrs ht hp

/-- Witness for C1: a `completed` tick reports stop, and a concrete loop
with a terminal second tick ignores its third tick and ends not
executing. -/
theorem polling_stops_exactly_on_terminal_witness :
    (pollTick (some "s1") "create L3VN" s0
      (FetchResult.resp true "OK" bodyCompleted)).2 = true
    ∧ runPoll (some "s1") "create L3VN" [frExecuting, frCompleted, frExecuting]
        ⟨s0, true⟩ =
      runPoll (some "s1") "create L3VN" [frExecuting, frCompleted] ⟨s0, true⟩
    ∧ (runPoll (some "s1") "create L3VN" [frExecuting, frCompleted, frExecuting]
        ⟨s0, true⟩).client.isExecuting = false :=
  ⟨(polling_stops_exactly_on_terminal.1 _ _ _ _ _).2 (Or.inl rfl),
   (polling_stops_exactly_on_terminal.2.2 _ _ [frExecuting] frCompleted
      [frExecuting] ⟨s0, true⟩ (by decide) (by decide) rfl).1,
   (polling_stops_exactly_on_terminal.2.2 _ _ [frExecuting] frCompleted
      [frExecuting] ⟨s0, true⟩ (by decide) (by decide) rfl).2.2⟩

/-- Claim C5: with no terminal status among the ticks that can fire before
the 10-minute ceiling, the interval is still live after them and
`isExecuting` untouched by them, and the ceiling then clears the interval
and `isExecuting` while changing nothing else of the client state. -/
theorem polling_ceiling_self_terminates (sessionId : Option String)
    (instr : String) (rs : List FetchResult) (s : ClientState)
    (h : ∀ x ∈ rs.take maxPollTicks, stopsPolling x = false) :
    (runPoll sessionId instr (rs.take maxPollTicks) ⟨s, true⟩).running = true
    ∧ (runPoll sessionId instr (rs.take maxPollTicks) ⟨s, true⟩).client.isExecuting
        = s.isExecuting
    ∧ runPollCeil sessionId instr rs s =
        ⟨{ (runPoll sessionId instr (rs.take maxPollTicks) ⟨s, true⟩).client with
            isExecuting := false }, false⟩ := by
  have base := runPoll_nostop_keeps sessionId instr (rs.take maxPollTicks) ⟨s, true⟩ h rfl
  exact ⟨base.1, base.2, rfl⟩

/-- Witness for C5: a run with one non-terminal tick is still live after
the ticks and is shut down by the ceiling with only `isExecuting`
changed. -/
theorem polling_ceiling_self_terminates_witness :
    (runPoll (some "s1") "create L3VN" ([frExecuting].take maxPollTicks)
      ⟨s0, true⟩).running = true
    ∧ runPollCeil (some "s1") "create L3VN" [frExecuting] s0 =
      ⟨{ (runPoll (some "s1") "create L3VN" ([frExecuting].take maxPollTicks)
          ⟨s0, true⟩).client with isExecuting := false }, false⟩ :=
  ⟨(polling_ceiling_self_terminates _ _ [frExecuting] s0 (by decide)).1,
   (polling_ceiling_self_terminates _ _ [frExecuting] s0 (by decide)).2.2⟩

/-- Claim C7: a successful poll tick overwrites the session's status (with
the `executing` fallback), workflows and errorMessage from the response,
keeps the previously known workflow list when the response omits one, and
leaves sessionId and command unaltered. -/
theorem poll_tick_overwrite_frame (sessionId : Option String)
    (instr stext : String) (b : ApiBody) (s : ClientState) (ts : TestSession)
    (pw : List String) (hsess : s.testSession = some ts)
    (hsid : ts.sessionId = sessionId) (hcmd : ts.command = instr)
    (hpw : ts.workflows = some pw) :
    (pollTick sessionId instr s (.resp true stext b)).1.testSession =
      some ⟨ts.sessionId, jsOrStr b.status "executing", ts.command,
        some (b.workflows.getD pw), b.error_message⟩ := by
  have hwf : tickWorkflows b s.testSession = b.workflows.getD pw := by
    rw [hsess]
    cases hb : b.workflows <;> simp [tickWorkflows, hpw, hb]
  rw [hsid, hcmd]
  by_cases hterm : b.status = some "completed" ∨ b.status = some "failed"
  · rcases hterm with h' | h' <;> cases hb : b.steps <;>
      simp [pollTick, h', hb, hwf]
  · rw [not_or] at hterm
    simp [pollTick, hterm.1, hterm.2, hwf]

/-- Witness for C7: a tick whose response has status `executing` and no
workflow list keeps the known workflows and clears the error message. -/
theorem poll_tick_overwrite_frame_witness :
    (pollTick (some "s1") "create L3VN" s0
      (FetchResult.resp true "OK" bodyExecuting)).1.testSession =
      some ⟨some "s1", "executing", "create L3VN", some ["l3vn"], none⟩ := by
  simpa using poll_tick_overwrite_frame (some "s1") "create L3VN" "OK"
    bodyExecuting s0 ts0 ["l3vn"] rfl rfl rfl rfl

/-- `proceedWithExecution` never touches the stored clarification
question. -/
theorem proceed_keeps_question (sessionId : Option String) (instr : String)
    (b : ApiBody) (s : ClientState) (e : FetchResult) :
    (proceedWithExecution sessionId instr b s e).1.clarificationQuestion =
      s.clarificationQuestion := by
  cases e with
  | throws m => rfl
  | resp ok st eb => cases ok <;> rfl

/-- Claim C6: after a successful skip response carrying a workflow list,
the stored list is the response's list verbatim — in the intermediate
`parsing` update and again in the `executing` session once execution
proceeds. -/
theorem skip_workflows_verbatim (s : ClientState) (ts : TestSession)
    (b eb : ApiBody) (ws : List String) (stext stext2 : String)
    (hsess : s.testSession = some ts) (hws : b.workflows = some ws) :
    (skipSuccessState s ts b).testSession =
      some { ts with status := "parsing", workflows := some ws }
    ∧ (skipClarification s (.resp true stext b) (.resp true stext2 eb)).1.testSession =
      some ⟨ts.sessionId, "executing", s.instruction, some ws, none⟩ := by
  constructor
  · simp [skipSuccessState, hws]
  · simp [skipClarification, hsess, skipSuccessState, proceedWithExecution,
      resultWorkflows, hws]

/-- Witness for C6: skipping with a concrete two-workflow response stores
exactly that list at the `parsing` update and in the executing session. -/
theorem skip_workflows_verbatim_witness :
    (skipSuccessState sClar tsClar bodySkip).testSession =
      some { tsClar with status := "parsing", workflows := some ["wf1", "wf2"] }
    ∧ (skipClarification sClar (FetchResult.resp true "OK" bodySkip)
        (FetchResult.resp true "OK" ApiBody.empty)).1.testSession =
      some ⟨some "s1", "executing", "create L3VN", some ["wf1", "wf2"], none⟩ :=
  ⟨(skip_workflows_verbatim sClar tsClar bodySkip ApiBody.empty ["wf1", "wf2"]
      "OK" "OK" rfl rfl).1,
   by simpa using (skip_workflows_verbatim sClar tsClar bodySkip ApiBody.empty
      ["wf1", "wf2"] "OK" "OK" rfl rfl).2⟩

/-- Counterexample to C9: on the failure path of answering a clarification
(non-2xx response to `provide_clarification`) the stored question is not
discarded — it stays `some q0` while the session status is already
`failed`, so the question both survives a submitted choice and outlives the
`needs_clarification` status. -/
theorem clarification_retained_on_failure_cex :
    (handleClarificationResponse sClar
      (FetchResult.resp false "Internal Server Error" ApiBody.empty)
      (FetchResult.throws "x")).1.clarificationQuestion = some q0
    ∧ (handleClarificationResponse sClar
      (FetchResult.resp false "Internal Server Error" ApiBody.empty)
      (FetchResult.throws "x")).1.testSession.map TestSession.status =
      some "failed" := by decide

/-- Claim C9 (amended): the stored question is discarded on the success
paths of answering and skipping a clarification; on their failure paths
(transport failure or non-2xx response) it is retained unchanged — only
the dialog flag is cleared — and can therefore outlive the
`needs_clarification` status. -/
theorem clarification_discard_amended :
    (∀ (s : ClientState) (ts : TestSession) (q : ClarificationQuestion)
        (stext : String) (b : ApiBody) (e : FetchResult),
      s.selectedOption ≠ "" → s.testSession = some ts →
      s.clarificationQuestion = some q →
      (handleClarificationResponse s (.resp true stext b) e).1.clarificationQuestion
        = none)
    ∧ (∀ (s : ClientState) (ts : TestSession) (stext : String) (b : ApiBody)
        (e : FetchResult),
      s.testSession = some ts →
      (skipClarification s (.resp true stext b) e).1.clarificationQuestion = none)
    ∧ (∀ (s : ClientState) (msg : String) (e : FetchResult),
      (handleClarificationResponse s (.throws msg) e).1.clarificationQuestion =
        s.clarificationQuestion)
    ∧ (∀ (s : ClientState) (stext : String) (b : ApiBody) (e : FetchResult),
      (handleClarificationResponse s (.resp false stext b) e).1.clarificationQuestion =
        s.clarificationQuestion)
    ∧ (∀ (s : ClientState) (msg : String) (e : FetchResult),
      (skipClarification s (.throws msg) e).1.clarificationQuestion =
        s.clarificationQuestion)
    ∧ (∀ (s : ClientState) (stext : String) (b : ApiBody) (e : FetchResult),
      (skipClarification s (.resp false stext b) e).1.clarificationQuestion =
        s.clarificationQuestion) := by
  refine ⟨?_, ?_, ?_, ?_, ?_, ?_⟩
  · intro s ts q stext b e hsel hsess hq
    rw [handleClarificationResponse, if_neg hsel]
    simp [hsess, hq, proceed_keeps_question]
  · intro s ts stext b e hsess
    simp [skipClarification, hsess, skipSuccessState, proceed_keeps_question]
  · intro s msg e
    by_cases hsel : s.selectedOption = ""
    · rw [handleClarificationResponse, if_pos hsel]
    · rw [handleClarificationResponse, if_neg hsel]
      cases hs : s.testSession <;> cases hq : s.clarificationQuestion <;> simp [hq]
  · intro s stext b e
    by_cases hsel : s.selectedOption = ""
    · rw [handleClarificationResponse, if_pos hsel]
    · rw [handleClarificationResponse, if_neg hsel]
      cases hs : s.testSession <;> cases hq : s.clarificationQuestion <;> simp [hq]
  · intro s msg e
    cases hs : s.testSession <;> simp [skipClarification, hs]
  · intro s stext b e
    cases hs : s.testSession <;> simp [skipClarification, hs]

/-- Witness for the amended C9: a successful concrete skip discards the
question; a failed concrete skip keeps it. -/
theorem clarification_discard_amended_witness :
    (skipClarification sClar (FetchResult.resp true "OK" bodySkip)
      (FetchResult.throws "e")).1.clarificationQuestion = none
    ∧ (skipClarification sClar
      (FetchResult.resp false "Service Unavailable" ApiBody.empty)
      (FetchResult.throws "e")).1.clarificationQuestion =
      sClar.clarificationQuestion :=
  ⟨clarification_discard_amended.2.1 sClar tsClar "OK" bodySkip
      (FetchResult.throws "e") rfl,
   clarification_discard_amended.2.2.2.2.2 sClar "Service Unavailable"
      ApiBody.empty (FetchResult.throws "e")⟩

/-- Counterexample to C2: a non-2xx response to the `get_session_status`
polling call is silently ignored — the tick changes nothing (the session
stays `executing` with no error message) and polling continues — instead
of capturing the status text and failing the session. -/
theorem poll_non2xx_ignored_cex :
    pollTick (some "s1") "create L3VN" s0
      (FetchResult.resp false "Internal Server Error" ApiBody.empty) = (s0, false)
    ∧ s0.testSession.map TestSession.status = some "executing"
    ∧ s0.testSession.map TestSession.errorMessage = some none := by decide

/-- Claim C2 (amended): a non-2xx response on the parse,
provide_clarification, skip_clarification and execute_test_plan calls makes
the session `failed` with the HTTP status text captured in its error
message; the `get_session_status` polling call instead ignores a non-2xx
response entirely (no error recorded, state unchanged, polling
continues). -/
theorem non2xx_error_capture_amended :
    (∀ (s : ClientState) (stext : String) (b : ApiBody) (e : FetchResult),
      jsTrim s.instruction ≠ "" → s.clusterConfig.ip ≠ "" →
      s.clusterConfig.username ≠ "" →
      (executeTest s (.resp false stext b) e).1.testSession =
        some ⟨some "error", "failed", s.instruction, some [],
          some ("Failed to parse instructions: " ++ stext)⟩)
    ∧ (∀ (s : ClientState) (ts : TestSession) (q : ClarificationQuestion)
        (stext : String) (b : ApiBody) (e : FetchResult),
      s.selectedOption ≠ "" → s.testSession = some ts →
      s.clarificationQuestion = some q →
      (handleClarificationResponse s (.resp false stext b) e).1.testSession =
        some { ts with
                 status := "failed",
                 errorMessage := some ("Failed to process clarification: " ++ stext) })
    ∧ (∀ (s : ClientState) (ts : TestSession) (stext : String) (b : ApiBody)
        (e : FetchResult),
      s.testSession = some ts →
      (skipClarification s (.resp false stext b) e).1.testSession =
        some { ts with
                 status := "failed",
                 errorMessage := some ("Failed to skip clarification: " ++ stext) })
    ∧ (∀ (sessionId : Option String) (instr : String) (pb : ApiBody)
        (s : ClientState) (stext : String) (eb : ApiBody),
      (proceedWithExecution sessionId instr pb s (.resp false stext eb)).1.testSession =
        some ⟨sessionId, "failed", instr, some [],
          some ("Failed to execute test: " ++ stext)⟩)
    ∧ (∀ (sessionId : Option String) (instr : String) (s : ClientState)
        (stext : String) (b : ApiBody),
      pollTick sessionId instr s (.resp false stext b) = (s, false)) := by
  refine ⟨?_, ?_, ?_, ?_, ?_⟩
  · intro s stext b e h1 h2 h3
    rw [executeTest, if_neg (by push_neg; exact ⟨h1, h2, h3⟩)]
    rfl
  · intro s ts q stext b e hsel hsess hq
    rw [handleClarificationResponse, if_neg hsel]
    simp [hsess, hq]
  · intro s ts stext b e hsess
    simp [skipClarification, hsess]
  · intro sessionId instr pb s stext eb
    rfl
  · intro sessionId instr s stext b
    rfl

/-- Witness for the amended C2: a concrete non-2xx skip fails the session
with the status text in the message, while a concrete non-2xx poll tick is
ignored. -/
theorem non2xx_error_capture_amended_witness :
    (skipClarification sClar
      (FetchResult.resp false "Service Unavailable" ApiBody.empty)
      (FetchResult.throws "e")).1.testSession =
      some { tsClar with
               status := "failed",
               errorMessage := some ("Failed to skip clarification: " ++ "Service Unavailable") }
    ∧ pollTick (some "s1") "create L3VN" s0
        (FetchResult.resp false "Service Unavailable" ApiBody.empty) = (s0, false) :=
  ⟨non2xx_error_capture_amended.2.2.1 sClar tsClar "Service Unavailable"
      ApiBody.empty (FetchResult.throws "e") rfl,
   non2xx_error_capture_amended.2.2.2.2 (some "s1") "create L3VN" s0
      "Service Unavailable" ApiBody.empty⟩

end AgentClient
